import Mathlib

/-!
Shallow embedding of `gen.py` from the json-pkcs11 repository: a converter
from a C-header introspection XML AST to a JSON catalog of function
signatures.  XML elements become a nested inductive `Element`; the Python
dicts `self.types` and `self.aliases` become association lists with
last-writer-wins lookup (`dget?`); Python exceptions (`NotImplementedError`,
`KeyError`, `NameError`, `TypeError`) become an `Err` sum carried in
`Except`; Python values that may be `None` become `Option String`, with
`pyStr` rendering `None` the way a Python f-string does.  Unbounded Python
recursion is modelled with a fuel parameter; exhausting it corresponds to a
`RecursionError`.
-/

/-- An XML element: tag, attribute list, child elements (document order). -/
inductive Element where
  | mk (tag : String) (attrs : List (String × String)) (children : List Element)
deriving Repr

/-- Tag of an element. -/
def Element.tag : Element → String
  | .mk t _ _ => t

/-- Attribute list of an element. -/
def Element.attrs : Element → List (String × String)
  | .mk _ a _ => a

/-- Children of an element. -/
def Element.children : Element → List Element
  | .mk _ _ c => c

/-- `el.get(k)` from Python ElementTree: the attribute value, or `None`. -/
def Element.get (el : Element) (k : String) : Option String :=
  (el.attrs.find? (fun p => p.1 == k)).map (fun p => p.2)

/-- `el.iter()` from Python ElementTree: the element followed by all its
descendants, in document (pre-)order. -/
def preorder : Element → List Element
  | .mk t a cs => .mk t a cs :: preorderAll cs
where preorderAll : List Element → List Element
  | [] => []
  | c :: cs => preorder c ++ preorderAll cs

/-- `el.iter(t)` from Python ElementTree: the element itself and its
descendants whose tag is `t`, in document order. -/
def iterTag (el : Element) (t : String) : List Element :=
  (preorder el).filter fun e => e.tag == t

/-- Python exceptions raised (or modelled) by the script. -/
inductive Err where
  | notImplemented
  | keyError
  | nameError
  | typeError
  | outOfFuel
deriving Repr, DecidableEq

/-- Python `dict` lookup `d[k]` / `d.get(k)` on an insertion-ordered
association list: the most recently inserted binding wins. -/
def dget? {α : Type} (d : List (Option String × α)) (k : Option String) : Option α :=
  (d.reverse.find? (fun p => p.1 == k)).map (fun p => p.2)

/-- How a Python f-string renders a `str | None` value. -/
def pyStr : Option String → String
  | some s => s
  | none => "None"

/-- The registry `self.types`: reference id (possibly absent) to element. -/
abbrev Registry := List (Option String × Element)

/-- The alias table `self.aliases`: referenced-type id to typedef name. -/
abbrev Aliases := List (Option String × Option String)

/-- The `resolve` method, dispatching on the node kind exactly as the class
hierarchy in `gen.py` does.  `types` and `aliases` are the (immutable at
resolution time) registry and alias table; the result is a `str | None`
Python value or a raised exception.  Tags outside the eight registered
variants fall to the base class `Type.resolve`, i.e. `NotImplementedError`. -/
def resolve (types : Registry) (aliases : Aliases) : Nat → Element → Except Err (Option String)
  | 0, _ => .error .outOfFuel
  | fuel + 1, el =>
    if el.tag = "Typedef" then
      .ok (el.get "name")
    else if el.tag = "PointerType" then
      match (dget? aliases (el.get "id")).join with
      | some a => .ok (some a)
      | none =>
        match dget? types (el.get "type") with
        | none => .error .keyError
        | some ref =>
          match resolve types aliases fuel ref with
          | .error e => .error e
          | .ok r => .ok (some (pyStr r ++ " *"))
    else if el.tag = "FundamentalType" then
      .ok (el.get "name")
    else if el.tag = "CvQualifiedType" then
      match dget? types (el.get "type") with
      | none => .error .keyError
      | some ref =>
        match resolve types aliases fuel ref with
        | .error e => .error e
        | .ok r => .ok (some ("const " ++ pyStr r))
    else if el.tag = "ElaboratedType" then
      if el.get "keyword" = some "struct" then
        match dget? types (el.get "type") with
        | none => .error .keyError
        | some ref => resolve types aliases fuel ref
      else
        .error .notImplemented
    else if el.tag = "ArrayType" then
      match dget? types (el.get "type") with
      | none => .error .keyError
      | some ref =>
        match resolve types aliases fuel ref with
        | .error e => .error e
        | .ok r => .ok (some (pyStr r ++ "[" ++ pyStr (el.get "max") ++ "]"))
    else if el.tag = "Struct" then
      .ok (some ("struct " ++ pyStr (el.get "name")))
    else
      .error .notImplemented

/-- The `resolve_ffi_type` method.  Only `Typedef`, `PointerType` and
`FundamentalType` override the base class; everything else raises
`NotImplementedError`. -/
def resolve_ffi_type (types : Registry) : Nat → Element → Except Err (Option String)
  | 0, _ => .error .outOfFuel
  | fuel + 1, el =>
    if el.tag = "Typedef" then
      match dget? types (el.get "type") with
      | none => .error .keyError
      | some ref => resolve_ffi_type types fuel ref
    else if el.tag = "PointerType" then
      .ok (some "pointer")
    else if el.tag = "FundamentalType" then
      if el.get "size" = some "8" then .ok (some "uchar")
      else if el.get "size" = some "64" then .ok (some "ulong")
      else .ok none
    else
      .error .notImplemented

/-- The `TYPES` list of recognized node kinds from `gen.py`. -/
def TYPES : List String :=
  ["Typedef", "PointerType", "FundamentalType", "ElaboratedType",
   "CvQualifiedType", "ArrayType", "FunctionType", "Struct"]

/-- The first loop of `AST.__init__`: every element of the document whose
tag is a recognized kind is inserted into the registry keyed by its `id`
attribute (later insertions shadow earlier ones under `dget?`). -/
def buildTypes (root : Element) : Registry :=
  (preorder root).filterMap fun el =>
    if el.tag ∈ TYPES then some (el.get "id", el) else none

/-- The second loop of `AST.__init__`: for every `Typedef` element in
document order, record `type`-attribute ↦ `name`-attribute. -/
def buildAliases (root : Element) : Aliases :=
  ((preorder root).filter fun el => el.tag == "Typedef").map fun el =>
    (el.get "type", el.get "name")

/-- The third loop of `AST.__init__`: the `Function` elements in document
order. -/
def functionsOf (root : Element) : List Element :=
  (preorder root).filter fun el => el.tag == "Function"

/-- One entry of the `"arguments"` list produced by `Function.to_json`. -/
structure ArgRecord where
  type : Option String
  name : Option String
  ffiType : Option String
deriving Repr, DecidableEq

/-- The object produced by `Function.to_json` for one function. -/
structure FuncRecord where
  name : Option String
  returns : Option String
  arguments : List ArgRecord
deriving Repr, DecidableEq

/-- The body of the argument loop in `Function.to_json`: look up and resolve
the argument's type, read its name, look up and classify its FFI type, in
the evaluation order of the Python dict literal. -/
def argRecord (types : Registry) (aliases : Aliases) (fuel : Nat) (arg : Element) :
    Except Err ArgRecord :=
  match dget? types (arg.get "type") with
  | none => .error .keyError
  | some node =>
    match resolve types aliases fuel node with
    | .error e => .error e
    | .ok t =>
      match dget? types (arg.get "type") with
      | none => .error .keyError
      | some node2 =>
        match resolve_ffi_type types fuel node2 with
        | .error e => .error e
        | .ok f => .ok { type := t, name := arg.get "name", ffiType := f }

/-- `Function.to_json`: name, resolved return type, then one record per
`Argument` descendant in document order; any exception aborts the whole
record. -/
def to_json (types : Registry) (aliases : Aliases) (fuel : Nat) (el : Element) :
    Except Err FuncRecord :=
  match dget? types (el.get "returns") with
  | none => .error .keyError
  | some ret =>
    match resolve types aliases fuel ret with
    | .error e => .error e
    | .ok r =>
      match (iterTag el "Argument").mapM (argRecord types aliases fuel) with
      | .error e => .error e
      | .ok args => .ok { name := el.get "name", returns := r, arguments := args }

/-- The whole run on one document: build registry, alias table and function
list from `root`, then serialize every function; the first exception aborts
the run with no output. -/
def output (root : Element) (fuel : Nat) : Except Err (List FuncRecord) :=
  (functionsOf root).mapM (to_json (buildTypes root) (buildAliases root) fuel)

/-- A Python object handed to `FunctionEncoder.default`: either a `Function`
instance or anything else. -/
inductive PyObj where
  | function (el : Element)
  | other

/-- The local names in scope inside `FunctionEncoder.default`. -/
def defaultScope : List String := ["self", "obj"]

/-- Python name resolution: evaluating an identifier that is not bound in
the enclosing scope raises `NameError`. -/
def evalName (scope : List String) (x : String) : Except Err Unit :=
  if x ∈ scope then .ok () else .error .nameError

/-- `json.JSONEncoder.default` (the base class method): it raises
`TypeError` for every argument. -/
def jsonEncoderDefault : Unit → Except Err FuncRecord :=
  fun _ => .error .typeError

/-- `FunctionEncoder.default`: a `Function` is serialized via `to_json`;
any other object takes the `else` branch, which evaluates the unbound name
`z` before it could call `super().default`. -/
def FunctionEncoder.default (types : Registry) (aliases : Aliases) (fuel : Nat) :
    PyObj → Except Err FuncRecord
  | .function el => to_json types aliases fuel el
  | .other =>
    match evalName defaultScope "z" with
    | .error e => .error e
    | .ok v => jsonEncoderDefault v

instance {ε α : Type} [DecidableEq ε] [DecidableEq α] : DecidableEq (Except ε α) :=
  fun a b =>
    match a, b with
    | .ok x, .ok y => if h : x = y then .isTrue (by rw [h]) else .isFalse (by simp [h])
    | .error x, .error y => if h : x = y then .isTrue (by rw [h]) else .isFalse (by simp [h])
    | .ok _, .error _ => .isFalse (by simp)
    | .error _, .ok _ => .isFalse (by simp)

/-! Concrete documents used to exercise the definitions (the scenarios of
the specification, plus a dangling-reference document). -/

/-- `<Struct id="s1" name="Foo"/>`. -/
def elStructFoo : Element := .mk "Struct" [("id", "s1"), ("name", "Foo")] []

/-- `<PointerType id="p1" type="s1"/>`: a pointer to `Foo`. -/
def elPtrFoo : Element := .mk "PointerType" [("id", "p1"), ("type", "s1")] []

/-- `<Typedef id="t1" name="FooPtr" type="p1"/>`: aliases the pointer's id. -/
def elTdFooPtr : Element := .mk "Typedef" [("id", "t1"), ("name", "FooPtr"), ("type", "p1")] []

/-- Scenario C document: the typedef aliases the pointer's own id. -/
def rootC : Element := .mk "root" [] [elStructFoo, elPtrFoo, elTdFooPtr]

/-- `<Typedef id="t1" name="FooStar" type="s1"/>`: aliases the pointee's id. -/
def elTdFooStar : Element := .mk "Typedef" [("id", "t1"), ("name", "FooStar"), ("type", "s1")] []

/-- A document where the typedef aliases the struct (the pointee), not the
pointer itself. -/
def rootX : Element := .mk "root" [] [elStructFoo, elPtrFoo, elTdFooStar]

/-- `<FundamentalType id="f8" name="unsigned char" size="8"/>`. -/
def elF8 : Element :=
  .mk "FundamentalType" [("id", "f8"), ("name", "unsigned char"), ("size", "8")] []

/-- `<FundamentalType id="f16" name="short" size="16"/>`: a size outside
`{8, 64}`. -/
def elShort16 : Element := .mk "FundamentalType" [("id", "f16"), ("name", "short"), ("size", "16")] []

/-- `<Typedef id="tu8" name="u8" type="f8"/>` (scenario B). -/
def elTdU8 : Element := .mk "Typedef" [("id", "tu8"), ("name", "u8"), ("type", "f8")] []

/-- `<ElaboratedType id="e1" keyword="union" type="s1"/>` (scenario E). -/
def elUnion : Element := .mk "ElaboratedType" [("id", "e1"), ("keyword", "union"), ("type", "s1")] []

/-- `<ElaboratedType id="e2" keyword="struct" type="s1"/>`. -/
def elElabStruct : Element :=
  .mk "ElaboratedType" [("id", "e2"), ("keyword", "struct"), ("type", "s1")] []

/-- `<FunctionType id="ft1"/>`. -/
def elFnType : Element := .mk "FunctionType" [("id", "ft1")] []

/-- `<FundamentalType id="f1" name="int" size="64"/>`. -/
def elInt : Element := .mk "FundamentalType" [("id", "f1"), ("name", "int"), ("size", "64")] []

/-- `<Argument type="f1" name="n"/>`. -/
def elArgN : Element := .mk "Argument" [("type", "f1"), ("name", "n")] []

/-- `<Function id="fn1" name="foo" returns="f1"><Argument .../></Function>`. -/
def elFn : Element := .mk "Function" [("id", "fn1"), ("name", "foo"), ("returns", "f1")] [elArgN]

/-- Scenario A document: one function `int foo(int n)`. -/
def rootA : Element := .mk "root" [] [elInt, elFn]

/-- `<Function id="fn2" name="bad" returns="zz"/>`: its return type id `zz`
appears nowhere in the document. -/
def elFnBad : Element := .mk "Function" [("id", "fn2"), ("name", "bad"), ("returns", "zz")] []

/-- A document with a dangling reference: `bad`'s return id is missing. -/
def rootBad : Element := .mk "root" [] [elInt, elFnBad]

/-! Theorems about the embedded program. -/

/-- C3: a FundamentalType resolves to its `name` attribute, and its FFI
classification is `"uchar"` at size 8, `"ulong"` at size 64, and silently
absent (`None`, not an exception) at every other size. -/
theorem C3_fundamental_type (types : Registry) (aliases : Aliases) (el : Element)
    (h : el.tag = "FundamentalType") (fuel : Nat) :
    resolve types aliases (fuel + 1) el = .ok (el.get "name")
    ∧ (el.get "size" = some "8" → resolve_ffi_type types (fuel + 1) el = .ok (some "uchar"))
    ∧ (el.get "size" = some "64" → resolve_ffi_type types (fuel + 1) el = .ok (some "ulong"))
    ∧ (el.get "size" ≠ some "8" → el.get "size" ≠ some "64" →
        resolve_ffi_type types (fuel + 1) el = .ok none) := by
  refine ⟨?_, ?_, ?_, ?_⟩
  · simp [resolve, h]
  · intro h8
    simp [resolve_ffi_type, h, h8]
  · intro h64
    simp [resolve_ffi_type, h, h64]
  · intro h8 h64
    simp [resolve_ffi_type, h, h8, h64]

/-- Witness for C3 at `elF8` (size 8) and `elShort16` (size 16). -/
theorem C3_fundamental_type_witness :
    resolve [] [] 1 elF8 = .ok (some "unsigned char")
    ∧ resolve_ffi_type [] 1 elF8 = .ok (some "uchar")
    ∧ resolve_ffi_type [] 1 elShort16 = .ok none :=
  ⟨(C3_fundamental_type [] [] elF8 rfl 0).1,
   (C3_fundamental_type [] [] elF8 rfl 0).2.1 (by decide),
   (C3_fundamental_type [] [] elShort16 rfl 0).2.2.2 (by decide) (by decide)⟩

/-- C4: a Typedef whose referenced id resolves to a registry node `R` has
the FFI classification of `R` (pass-through), and displays as its own
`name` attribute. -/
theorem C4_typedef_passthrough (types : Registry) (aliases : Aliases) (T R : Element)
    (hT : T.tag = "Typedef") (hR : dget? types (T.get "type") = some R) (fuel : Nat) :
    resolve_ffi_type types (fuel + 1) T = resolve_ffi_type types fuel R
    ∧ resolve types aliases (fuel + 1) T = .ok (T.get "name") := by
  constructor <;> simp [resolve, resolve_ffi_type, hT, hR]

/-- Witness for C4: `u8` aliasing the 8-bit fundamental type. -/
theorem C4_typedef_passthrough_witness :
    resolve_ffi_type [(some "f8", elF8)] 2 elTdU8 = resolve_ffi_type [(some "f8", elF8)] 1 elF8
    ∧ resolve [(some "f8", elF8)] [] 2 elTdU8 = .ok (some "u8") :=
  C4_typedef_passthrough [(some "f8", elF8)] [] elTdU8 elF8 rfl rfl 1

/-- C5: an ElaboratedType with keyword `"struct"` resolves to the display
of its referenced node; any other keyword (including an absent one) raises
the unsupported-construct failure. -/
theorem C5_elaborated_type (types : Registry) (aliases : Aliases) (el : Element)
    (h : el.tag = "ElaboratedType") (fuel : Nat) :
    (el.get "keyword" = some "struct" →
      ∀ R, dget? types (el.get "type") = some R →
        resolve types aliases (fuel + 1) el = resolve types aliases fuel R)
    ∧ (el.get "keyword" ≠ some "struct" →
        resolve types aliases (fuel + 1) el = .error .notImplemented) := by
  constructor
  · intro hk R hRef
    simp [resolve, h, hk, hRef]
  · intro hk
    simp [resolve, h, hk]

/-- Witness for C5: a `struct` keyword resolves through; a `union` keyword
fails (scenario E). -/
theorem C5_elaborated_type_witness :
    resolve [(some "s1", elStructFoo)] [] 2 elElabStruct
        = resolve [(some "s1", elStructFoo)] [] 1 elStructFoo
    ∧ resolve [(some "s1", elStructFoo)] [] 2 elUnion = .error .notImplemented :=
  ⟨(C5_elaborated_type [(some "s1", elStructFoo)] [] elElabStruct rfl 1).1
      rfl elStructFoo rfl,
   (C5_elaborated_type [(some "s1", elStructFoo)] [] elUnion rfl 1).2 (by decide)⟩

/-- C6: `resolve_ffi_type` raises the unimplemented-resolution failure on
every CvQualifiedType, ElaboratedType, ArrayType, Struct and FunctionType
node, and `resolve` on a FunctionType raises the same failure. -/
theorem C6_unimplemented_classification (types : Registry) (aliases : Aliases)
    (el : Element) (fuel : Nat) :
    (el.tag ∈ ["CvQualifiedType", "ElaboratedType", "ArrayType", "Struct", "FunctionType"] →
      resolve_ffi_type types (fuel + 1) el = .error .notImplemented)
    ∧ (el.tag = "FunctionType" → resolve types aliases (fuel + 1) el = .error .notImplemented) := by
  constructor
  · intro hmem
    simp only [List.mem_cons, List.not_mem_nil, or_false] at hmem
    rcases hmem with h | h | h | h | h <;> simp [resolve_ffi_type, h]
  · intro h
    simp [resolve, h]

/-- Witness for C6 at a FunctionType node. -/
theorem C6_unimplemented_classification_witness :
    resolve_ffi_type [] 1 elFnType = .error .notImplemented
    ∧ resolve [] [] 1 elFnType = .error .notImplemented :=
  ⟨(C6_unimplemented_classification [] [] elFnType 0).1 (by decide),
   (C6_unimplemented_classification [] [] elFnType 0).2 rfl⟩

/-- C10: on any non-`Function` object, `FunctionEncoder.default` raises
`NameError` (the `else` branch evaluates the unbound name `z`), never the
base encoder's `TypeError`, and never returns a value. -/
theorem C10_encoder_nameerror (types : Registry) (aliases : Aliases) (fuel : Nat) :
    FunctionEncoder.default types aliases fuel .other = .error .nameError
    ∧ FunctionEncoder.default types aliases fuel .other ≠ .error .typeError
    ∧ ∀ v, FunctionEncoder.default types aliases fuel .other ≠ .ok v := by
  refine ⟨?_, ?_, ?_⟩ <;> simp [FunctionEncoder.default, evalName, defaultScope]

/-- C1: a PointerType resolves to the alias-table entry recorded under its
own reference id when one exists (and an entry exists whenever some Typedef
in the document references that id); with no entry it resolves to the
referenced node's display followed by `" *"`; its FFI tag is always
`"pointer"`. -/
theorem C1_pointer_node (root P : Element) (hP : P.tag = "PointerType") (fuel : Nat) :
    (∀ a, dget? (buildAliases root) (P.get "id") = some (some a) →
      resolve (buildTypes root) (buildAliases root) (fuel + 1) P = .ok (some a))
    ∧ (dget? (buildAliases root) (P.get "id") = none →
      ∀ R r, dget? (buildTypes root) (P.get "type") = some R →
        resolve (buildTypes root) (buildAliases root) fuel R = .ok r →
        resolve (buildTypes root) (buildAliases root) (fuel + 1) P = .ok (some (pyStr r ++ " *")))
    ∧ (∀ td, td ∈ preorder root → td.tag = "Typedef" → td.get "type" = P.get "id" →
        (dget? (buildAliases root) (P.get "id")).isSome = true)
    ∧ resolve_ffi_type (buildTypes root) (fuel + 1) P = .ok (some "pointer") := by
  refine ⟨?_, ?_, ?_, ?_⟩
  · intro a ha
    simp [resolve, hP, ha]
  · intro ha R r hR hr
    simp [resolve, hP, ha, hR, hr]
  · intro td hmem htag hty
    unfold dget? buildAliases
    have hx : ((List.map (fun el => (el.get "type", el.get "name"))
          (List.filter (fun el => el.tag == "Typedef") (preorder root))).reverse.find?
            (fun p => p.1 == P.get "id")).isSome = true := by
      rw [List.find?_isSome]
      refine ⟨(td.get "type", td.get "name"), ?_, by simp [hty]⟩
      rw [List.mem_reverse, List.mem_map]
      exact ⟨td, List.mem_filter.2 ⟨hmem, by simp [htag]⟩, rfl⟩
    obtain ⟨y, hy⟩ := Option.isSome_iff_exists.1 hx
    simp [hy]
  · simp [resolve_ffi_type, hP]

/-- Witness for C1 at scenario C: the alias `FooPtr` is preferred over the
structural expansion `struct Foo *`. -/
theorem C1_pointer_node_witness :
    resolve (buildTypes rootC) (buildAliases rootC) 5 elPtrFoo = .ok (some "FooPtr")
    ∧ resolve_ffi_type (buildTypes rootC) 5 elPtrFoo = .ok (some "pointer") :=
  ⟨(C1_pointer_node rootC elPtrFoo rfl 4).1 "FooPtr" rfl,
   (C1_pointer_node rootC elPtrFoo rfl 4).2.2.2⟩

/-- C2 counterexample: in `rootX` the typedef aliases the pointee id `s1`
(the value of the pointer's `type` attribute), so the claimed lookup key has
the alias-table entry `FooStar`; yet the pointer resolves to the structural
expansion `struct Foo *`, because the code keys the lookup on the pointer's
own `id`, not on its pointee id. -/
theorem C2_counterexample :
    dget? (buildAliases rootX) (elPtrFoo.get "type") = some (some "FooStar")
    ∧ resolve (buildTypes rootX) (buildAliases rootX) 5 elPtrFoo = .ok (some "struct Foo *")
    ∧ resolve (buildTypes rootX) (buildAliases rootX) 5 elPtrFoo ≠ .ok (some "FooStar") :=
  ⟨rfl, rfl, by decide⟩

/-- C2 (amended): for a PointerType whose OWN reference id has an
alias-table entry with a name, `resolve` returns that name; otherwise it
returns the referenced node's display followed by `" *"`. -/
theorem C2_pointer_alias (types : Registry) (aliases : Aliases) (P : Element)
    (hP : P.tag = "PointerType") (fuel : Nat) :
    (∀ a, (dget? aliases (P.get "id")).join = some a →
      resolve types aliases (fuel + 1) P = .ok (some a))
    ∧ ((dget? aliases (P.get "id")).join = none →
      ∀ R r, dget? types (P.get "type") = some R →
        resolve types aliases fuel R = .ok r →
        resolve types aliases (fuel + 1) P = .ok (some (pyStr r ++ " *"))) := by
  constructor
  · intro a ha
    rcases hd : dget? aliases (P.get "id") with _ | b
    · rw [hd] at ha
      simp [Option.join] at ha
    · rw [hd] at ha
      simp [Option.join] at ha
      simp [resolve, hP, hd, ha]
  · intro ha R r hR hr
    rcases hd : dget? aliases (P.get "id") with _ | b
    · simp [resolve, hP, hd, hR, hr]
    · rw [hd] at ha
      simp [Option.join] at ha
      simp [resolve, hP, hd, ha, hR, hr]

/-- Witness for C2 (amended) at scenario D: no alias on the pointer's own
id, so the display is the structural expansion. -/
theorem C2_pointer_alias_witness :
    resolve (buildTypes rootX) (buildAliases rootX) 2 elPtrFoo = .ok (some "struct Foo *") :=
  (C2_pointer_alias (buildTypes rootX) (buildAliases rootX) elPtrFoo rfl 1).2 rfl
    elStructFoo (some "struct Foo") rfl rfl

/-- `find?` on a filtered list searches the original list with the
conjunction of the two predicates. -/
theorem find?_filter_conj {α : Type} (p q : α → Bool) (l : List α) :
    (l.filter p).find? q = l.find? (fun a => p a && q a) := by
  induction l with
  | nil => rfl
  | cons x xs ih =>
    by_cases hp : p x
    · by_cases hq : q x
      · simp [List.filter_cons, hp, hq]
      · simp [List.filter_cons, hp, hq, ih]
    · simp [List.filter_cons, hp, ih]

/-- C8: after registry construction the alias table maps every key to the
`name` attribute of the last `Typedef` element in document order whose
`type` attribute equals that key (last writer wins); keys referenced by no
Typedef are absent. -/
theorem C8_alias_table_last_writer (root : Element) (k : Option String) :
    dget? (buildAliases root) k =
      ((preorder root).reverse.find?
          (fun el => el.tag == "Typedef" && el.get "type" == k)).map
        (fun el => el.get "name") := by
  unfold dget? buildAliases
  rw [← List.map_reverse, List.find?_map, ← List.filter_reverse, find?_filter_conj,
    Option.map_map]
  rfl

/-- A successful `mapM` over `Except` maps every element successfully, and
positionally: the output has the same length and the image of the `i`-th
input is the `i`-th output. -/
theorem mapM_ok_spec {ε α β : Type} (f : α → Except ε β) :
    ∀ (l : List α) (ys : List β), l.mapM f = .ok ys →
      ys.length = l.length ∧
      ∀ i (h1 : i < l.length) (h2 : i < ys.length),
        f (l.get ⟨i, h1⟩) = .ok (ys.get ⟨i, h2⟩) := by
  intro l
  induction l with
  | nil =>
    intro ys h
    rw [List.mapM_nil] at h
    simp only [pure, Except.pure, Except.ok.injEq] at h
    subst h
    exact ⟨rfl, fun i h1 _ => absurd h1 (by simp)⟩
  | cons x xs ih =>
    intro ys h
    rw [List.mapM_cons] at h
    rcases hx : f x with e | y <;> rw [hx] at h
    · simp [Bind.bind, Except.bind] at h
    · rcases hxs : xs.mapM f with e | zs <;> rw [hxs] at h
      · simp [Bind.bind, Except.bind] at h
      · simp only [Bind.bind, Except.bind, pure, Except.pure, Except.ok.injEq] at h
        subst h
        obtain ⟨hlen, hget⟩ := ih zs hxs
        refine ⟨by simp [hlen], ?_⟩
        intro i h1 h2
        cases i with
        | zero => simpa using hx
        | succ j =>
          simpa using hget j (by simpa using h1) (by simpa using h2)

/-- C7: a referenced-type id missing from the registry raises the lookup
failure (`KeyError`) wherever it is consulted — shown here for a Typedef's
FFI classification, a PointerType's structural expansion and a function's
return type — and such a failure is never caught: if any function of the
document fails to serialize, the whole run produces no output at all. -/
theorem C7_dangling_reference_fatal (root : Element) (fuel : Nat) :
    (∀ T, T.tag = "Typedef" → dget? (buildTypes root) (T.get "type") = none →
      resolve_ffi_type (buildTypes root) (fuel + 1) T = .error .keyError)
    ∧ (∀ P, P.tag = "PointerType" → dget? (buildAliases root) (P.get "id") = none →
        dget? (buildTypes root) (P.get "type") = none →
        resolve (buildTypes root) (buildAliases root) (fuel + 1) P = .error .keyError)
    ∧ (∀ g, dget? (buildTypes root) (g.get "returns") = none →
        to_json (buildTypes root) (buildAliases root) fuel g = .error .keyError)
    ∧ (∀ g, g ∈ functionsOf root →
        (∀ y, to_json (buildTypes root) (buildAliases root) fuel g ≠ .ok y) →
        ∀ l, output root fuel ≠ .ok l) := by
  refine ⟨?_, ?_, ?_, ?_⟩
  · intro T hT hd
    simp [resolve_ffi_type, hT, hd]
  · intro P hP ha hd
    simp [resolve, hP, ha, hd]
  · intro g hd
    simp [to_json, hd]
  · intro g hg hne l hout
    have h' : (functionsOf root).mapM (to_json (buildTypes root) (buildAliases root) fuel)
        = .ok l := hout
    obtain ⟨hlen, hget⟩ := mapM_ok_spec _ _ _ h'
    obtain ⟨⟨i, hi⟩, hgi⟩ := List.get_of_mem hg
    have hi' := hget i hi (by omega)
    rw [hgi] at hi'
    exact hne _ hi'

/-- Witness for C7: in `rootBad` the function `bad` refers to the missing
return-type id `zz`; its record fails with the lookup error and the run
yields no output. -/
theorem C7_dangling_reference_fatal_witness :
    to_json (buildTypes rootBad) (buildAliases rootBad) 3 elFnBad = .error .keyError
    ∧ output rootBad 3 ≠ .ok [] := by
  constructor
  · exact (C7_dangling_reference_fatal rootBad 3).2.2.1 elFnBad rfl
  · refine (C7_dangling_reference_fatal rootBad 3).2.2.2 elFnBad (List.Mem.head _) ?_ []
    intro y hy
    rw [(C7_dangling_reference_fatal rootBad 3).2.2.1 elFnBad rfl] at hy
    exact Except.noConfusion hy

/-- A successful `to_json` record carries the function's `name` attribute
and exactly the result of mapping `argRecord` over the function's
`Argument` descendants. -/
theorem to_json_ok_parts (types : Registry) (aliases : Aliases) (fuel : Nat)
    (el : Element) (r : FuncRecord) (h : to_json types aliases fuel el = .ok r) :
    r.name = el.get "name"
    ∧ (iterTag el "Argument").mapM (argRecord types aliases fuel) = .ok r.arguments := by
  unfold to_json at h
  split at h
  · exact absurd h (by simp)
  · split at h
    · exact absurd h (by simp)
    · split at h
      · exact absurd h (by simp)
      · rename_i args h3
        simp only [Except.ok.injEq] at h
        subst h
        exact ⟨rfl, h3⟩

/-- A successful `argRecord` carries the argument's `name` attribute. -/
theorem argRecord_ok_name (types : Registry) (aliases : Aliases) (fuel : Nat)
    (arg : Element) (a : ArgRecord) (h : argRecord types aliases fuel arg = .ok a) :
    a.name = arg.get "name" := by
  unfold argRecord at h
  split at h
  · exact absurd h (by simp)
  · split at h
    · exact absurd h (by simp)
    · split at h
      · exact absurd h (by simp)
      · split at h
        · exact absurd h (by simp)
        · simp only [Except.ok.injEq] at h
          subst h
          rfl

/-- C9: a successful run yields exactly one record per `Function` element,
in document order — the `i`-th record is the serialization of the `i`-th
function — and inside each record the argument entries correspond
positionally (same length, same order, same declared names) to that
function's `Argument` elements in document order. -/
theorem C9_output_order (root : Element) (fuel : Nat) (l : List FuncRecord)
    (h : output root fuel = .ok l) :
    l.length = (functionsOf root).length
    ∧ (∀ i (h1 : i < (functionsOf root).length) (h2 : i < l.length),
        to_json (buildTypes root) (buildAliases root) fuel
            ((functionsOf root).get ⟨i, h1⟩) = .ok (l.get ⟨i, h2⟩))
    ∧ (∀ i (h1 : i < (functionsOf root).length) (h2 : i < l.length),
        (l.get ⟨i, h2⟩).arguments.length
            = (iterTag ((functionsOf root).get ⟨i, h1⟩) "Argument").length
        ∧ ∀ j (j1 : j < (iterTag ((functionsOf root).get ⟨i, h1⟩) "Argument").length)
            (j2 : j < (l.get ⟨i, h2⟩).arguments.length),
            argRecord (buildTypes root) (buildAliases root) fuel
                ((iterTag ((functionsOf root).get ⟨i, h1⟩) "Argument").get ⟨j, j1⟩)
              = .ok ((l.get ⟨i, h2⟩).arguments.get ⟨j, j2⟩)
            ∧ ((l.get ⟨i, h2⟩).arguments.get ⟨j, j2⟩).name
              = ((iterTag ((functionsOf root).get ⟨i, h1⟩) "Argument").get ⟨j, j1⟩).get
                  "name") := by
  have h' : (functionsOf root).mapM (to_json (buildTypes root) (buildAliases root) fuel)
      = .ok l := h
  obtain ⟨hlen, hget⟩ := mapM_ok_spec _ _ _ h'
  refine ⟨hlen, hget, ?_⟩
  intro i h1 h2
  obtain ⟨-, hargs⟩ := to_json_ok_parts _ _ _ _ _ (hget i h1 h2)
  obtain ⟨halen, haget⟩ := mapM_ok_spec _ _ _ hargs
  refine ⟨halen, ?_⟩
  intro j j1 j2
  have hj := haget j j1 j2
  exact ⟨hj, argRecord_ok_name _ _ _ _ _ hj⟩

/-- Witness for C9 at scenario A: one function, one record, one argument. -/
theorem C9_output_order_witness :
    ([⟨some "foo", some "int", [⟨some "int", some "n", some "ulong"⟩]⟩]
        : List FuncRecord).length = (functionsOf rootA).length :=
  (C9_output_order rootA 5
    [⟨some "foo", some "int", [⟨some "int", some "n", some "ulong"⟩]⟩] (by decide)).1
